import Mathlib

/-!
Verification of the documentation build pipeline in `build.py`
(Respectify/respectify-php).

The script defines three stages — `run_schema_generator`, `run_phpdoc`,
`copy_docs` — and a `__main__` block that runs them in order, halting at
the first failure and mapping the overall outcome to the process exit
code.  We embed the script shallowly: external-process invocations and
filesystem operations become oracles/explicit state, Python exceptions
become an `Except` layer, and printed lines become an abstract message
trace.
-/

/-- A Python exception value, restricted to the kinds that can arise in
`build.py`: `subprocess.CalledProcessError` (carrying the non-zero return
code of the child process), an `OSError`-like fault of the invocation
itself (e.g. the `docker` or `python` executable is missing), and a
filesystem fault raised by `os.makedirs` / `shutil.rmtree` /
`shutil.copytree`. -/
inductive PyExc where
  | calledProcessError (returncode : Int)
  | osError (msg : String)
  | fsError (msg : String)
deriving Repr, DecidableEq

/-- Outcome of attempting to execute an external process: either the
process ran to completion with an exit status (and produced some stdout
and stderr text, which the script never reads), or the invocation itself
faulted before a process existed. -/
inductive ProcOutcome where
  | exited (status : Int) (stdout stderr : String)
  | execFault (e : PyExc)
deriving Repr, DecidableEq

/-- `subprocess.run(cmd, check=True)`: returns normally when the child
exits with status 0, raises `CalledProcessError` on a non-zero status,
and propagates any fault of the invocation itself. -/
def subprocessRunCheck (o : ProcOutcome) : Except PyExc Unit :=
  match o with
  | ProcOutcome.exited s _ _ =>
      if s = 0 then Except.ok () else Except.error (PyExc.calledProcessError s)
  | ProcOutcome.execFault e => Except.error e

/-- One line printed by the script, abstracted from its literal text. -/
inductive Msg where
  | buildingHeader
  | separator
  | schemaGenerating
  | schemaSuccess
  | schemaError (e : PyExc)
  | phpdocSuccess
  | phpdocError (e : PyExc)
  | copyingTo
  | copySuccess
  | copyError (e : PyExc)
  | buildCompleted
  | blank
  | apiRefAvailable
deriving Repr, DecidableEq

/-- `run_phpdoc` from `build.py`: runs the phpDocumentor Docker command
with `check=True`; on success prints the success line and returns `True`;
a `CalledProcessError` is caught, reported and turned into `False`; any
other exception propagates.  The result pairs the lines printed by the
stage with its outcome (`Except.error` = an uncaught exception escaping
the function). -/
def run_phpdoc (o : ProcOutcome) : List Msg × Except PyExc Bool :=
  match subprocessRunCheck o with
  | Except.ok _ => ([Msg.phpdocSuccess], Except.ok true)
  | Except.error (PyExc.calledProcessError s) =>
      ([Msg.phpdocError (PyExc.calledProcessError s)], Except.ok false)
  | Except.error e => ([], Except.error e)

/-- `run_schema_generator` from `build.py`: prints its banner line
(outside the `try`), then runs `python ../respectify-python/schema_generator.py`
with `check=True`; `CalledProcessError` is caught and turned into `False`,
any other exception propagates (the banner line has already been
printed). -/
def run_schema_generator (o : ProcOutcome) : List Msg × Except PyExc Bool :=
  match subprocessRunCheck o with
  | Except.ok _ => ([Msg.schemaGenerating, Msg.schemaSuccess], Except.ok true)
  | Except.error (PyExc.calledProcessError s) =>
      ([Msg.schemaGenerating, Msg.schemaError (PyExc.calledProcessError s)], Except.ok false)
  | Except.error e => ([Msg.schemaGenerating], Except.error e)

/-- A filesystem tree: a file with contents, or a directory with named
entries. -/
inductive FsTree where
  | file (content : String)
  | dir (entries : List (String × FsTree))

/-- What sits at a path: `none` when the path does not exist. -/
abbrev FsNode := Option FsTree

/-- Injected faults for the three filesystem operations of `copy_docs`
(e.g. permission errors); `false` everywhere means the operations behave
normally. -/
structure FsFaults where
  makedirsFails : Bool
  rmtreeFails : Bool
  copytreeFails : Bool

/-- The fault-free environment. -/
def FsFaults.none : FsFaults := ⟨false, false, false⟩

/-- `os.makedirs(path, exist_ok=True)`: creates the directory when the
path does not exist; a no-op when a directory is already there; raises
`FileExistsError` when the path exists but is a regular file. -/
def makedirs_exist_ok (d : FsNode) : Except PyExc FsNode :=
  match d with
  | Option.none => Except.ok (some (FsTree.dir []))
  | some (FsTree.dir es) => Except.ok (some (FsTree.dir es))
  | some (FsTree.file _) => Except.error (PyExc.fsError "FileExistsError")

/-- `os.path.exists`. -/
def path_exists (d : FsNode) : Bool := d.isSome

/-- `shutil.rmtree(path)`: removes the directory tree at the path;
raises when the path is a regular file or does not exist. -/
def rmtree (d : FsNode) : Except PyExc FsNode :=
  match d with
  | some (FsTree.dir _) => Except.ok Option.none
  | some (FsTree.file _) => Except.error (PyExc.fsError "NotADirectoryError")
  | Option.none => Except.error (PyExc.fsError "FileNotFoundError")

/-- `shutil.copytree(src, dst)`: copies the directory tree at `src` to
`dst`; raises when `src` is missing or not a directory, or when `dst`
already exists. -/
def copytree (s : FsNode) (d : FsNode) : Except PyExc FsNode :=
  match s, d with
  | some (FsTree.dir es), Option.none => Except.ok (some (FsTree.dir es))
  | some (FsTree.file _), _ => Except.error (PyExc.fsError "NotADirectoryError")
  | Option.none, _ => Except.error (PyExc.fsError "FileNotFoundError")
  | some (FsTree.dir _), some _ => Except.error (PyExc.fsError "FileExistsError")

/-- `copy_docs` from `build.py`.  It prints the destination banner, then
inside a `try` catching every `Exception`: `os.makedirs(dest,
exist_ok=True)`, then `if os.path.exists(dest): shutil.rmtree(dest)`,
then `shutil.copytree(src, dest)`.  Any exception is reported and turned
into `False`; otherwise it prints the success line and returns `True`.
The result is the final node at the destination path (the one mutated
state), the printed lines, and the returned boolean — the function has no
`Except` layer because the bare `except Exception` never lets one
escape.  On a fault the destination is left as the preceding operations
left it. -/
def copy_docs (f : FsFaults) (src dest : FsNode) : FsNode × List Msg × Bool :=
  match (if f.makedirsFails then Except.error (PyExc.osError "makedirs")
         else makedirs_exist_ok dest : Except PyExc FsNode) with
  | Except.error e => (dest, [Msg.copyingTo, Msg.copyError e], false)
  | Except.ok d1 =>
    match (if path_exists d1 then
             (if f.rmtreeFails then Except.error (PyExc.osError "rmtree") else rmtree d1)
           else Except.ok d1 : Except PyExc FsNode) with
    | Except.error e => (d1, [Msg.copyingTo, Msg.copyError e], false)
    | Except.ok d2 =>
      match (if f.copytreeFails then Except.error (PyExc.osError "copytree")
             else copytree src d2 : Except PyExc FsNode) with
      | Except.error e => (d2, [Msg.copyingTo, Msg.copyError e], false)
      | Except.ok d3 => (d3, [Msg.copyingTo, Msg.copySuccess], true)

/-- The three stages, named as in `build.py`, in pipeline order. -/
inductive StageName where
  | schemaGen
  | phpdoc
  | copyDocs
deriving Repr, DecidableEq

/-- The environment a run of the script executes in: the behaviour of the
two external processes, the filesystem-fault environment, and the trees
at the copy source (`docs`) and destination paths. -/
structure World where
  schemaProc : ProcOutcome
  phpdocProc : ProcOutcome
  fsFaults : FsFaults
  src : FsNode
  dest : FsNode

/-- Observable outcome of one run of the `__main__` block: which stages
were invoked (in order), the printed lines, the process exit status,
whether an exception escaped uncaught (the interpreter then also exits
with status 1), and the final state of the copy destination. -/
structure RunResult where
  invoked : List StageName
  output : List Msg
  exitCode : Nat
  uncaught : Bool
  finalDest : FsNode

/-- The `__main__` block of `build.py`: prints the header, then
`if run_schema_generator(): if run_phpdoc(): if copy_docs(): success
else exit(1) else exit(1) else exit(1)`.  Falling off the end gives exit
status 0; an uncaught exception makes the interpreter exit with status
1. -/
def main_block (w : World) : RunResult :=
  let header := [Msg.buildingHeader, Msg.separator]
  match run_schema_generator w.schemaProc with
  | (o1, Except.error _) =>
      { invoked := [StageName.schemaGen], output := header ++ o1,
        exitCode := 1, uncaught := true, finalDest := w.dest }
  | (o1, Except.ok false) =>
      { invoked := [StageName.schemaGen], output := header ++ o1,
        exitCode := 1, uncaught := false, finalDest := w.dest }
  | (o1, Except.ok true) =>
    match run_phpdoc w.phpdocProc with
    | (o2, Except.error _) =>
        { invoked := [StageName.schemaGen, StageName.phpdoc],
          output := header ++ o1 ++ o2,
          exitCode := 1, uncaught := true, finalDest := w.dest }
    | (o2, Except.ok false) =>
        { invoked := [StageName.schemaGen, StageName.phpdoc],
          output := header ++ o1 ++ o2,
          exitCode := 1, uncaught := false, finalDest := w.dest }
    | (o2, Except.ok true) =>
      match copy_docs w.fsFaults w.src w.dest with
      | (d3, o3, false) =>
          { invoked := [StageName.schemaGen, StageName.phpdoc, StageName.copyDocs],
            output := header ++ o1 ++ o2 ++ o3,
            exitCode := 1, uncaught := false, finalDest := d3 }
      | (d3, o3, true) =>
          { invoked := [StageName.schemaGen, StageName.phpdoc, StageName.copyDocs],
            output := header ++ o1 ++ o2 ++ o3
                      ++ [Msg.separator, Msg.buildCompleted, Msg.blank, Msg.apiRefAvailable],
            exitCode := 0, uncaught := false, finalDest := d3 }

/-- The value `run_schema_generator` produced in the run (its printed
lines aside). -/
def schemaResult (w : World) : Except PyExc Bool := (run_schema_generator w.schemaProc).2

/-- The value `run_phpdoc` produced in the run. -/
def phpdocResult (w : World) : Except PyExc Bool := (run_phpdoc w.phpdocProc).2

/-- The boolean `copy_docs` returns in the run's environment. -/
def copyResult (w : World) : Bool := (copy_docs w.fsFaults w.src w.dest).2.2

/-- All three stages return `True` in the run's environment. -/
def allStagesTrue (w : World) : Prop :=
  schemaResult w = Except.ok true ∧ phpdocResult w = Except.ok true ∧ copyResult w = true

/-- A concrete environment in which all three stages succeed. -/
def wAllOk : World :=
  { schemaProc := ProcOutcome.exited 0 "" ""
    phpdocProc := ProcOutcome.exited 0 "" ""
    fsFaults := FsFaults.none
    src := some (FsTree.dir [("a.md", FsTree.file "x")])
    dest := Option.none }

/-- A concrete environment in which the schema generator exits with
status 1 and the later stages would succeed. -/
def wSchemaFails : World :=
  { schemaProc := ProcOutcome.exited 1 "" ""
    phpdocProc := ProcOutcome.exited 0 "" ""
    fsFaults := FsFaults.none
    src := some (FsTree.dir [("a.md", FsTree.file "x")])
    dest := Option.none }

/-- A concrete environment in which phpDocumentor exits with status 2
after a successful schema generation. -/
def wPhpdocFails : World :=
  { schemaProc := ProcOutcome.exited 0 "" ""
    phpdocProc := ProcOutcome.exited 2 "boom" "err"
    fsFaults := FsFaults.none
    src := some (FsTree.dir [("a.md", FsTree.file "x")])
    dest := Option.none }

/-- A concrete environment in which both subprocess stages succeed but
the copy source directory `docs` is missing, so `copy_docs` fails. -/
def wCopyFails : World :=
  { schemaProc := ProcOutcome.exited 0 "" ""
    phpdocProc := ProcOutcome.exited 0 "" ""
    fsFaults := FsFaults.none
    src := Option.none
    dest := some (FsTree.dir [("old.md", FsTree.file "stale")]) }

example : run_phpdoc (ProcOutcome.exited 0 "out" "err")
    = ([Msg.phpdocSuccess], Except.ok true) := by rfl
example : run_phpdoc (ProcOutcome.exited 2 "" "")
    = ([Msg.phpdocError (PyExc.calledProcessError 2)], Except.ok false) := by rfl
example :
    copy_docs FsFaults.none (some (FsTree.dir [("a.md", FsTree.file "x")])) Option.none
    = (some (FsTree.dir [("a.md", FsTree.file "x")]), [Msg.copyingTo, Msg.copySuccess], true) := by
  rfl
example :
    copy_docs FsFaults.none Option.none (some (FsTree.dir [("old", FsTree.file "x")]))
    = (Option.none, [Msg.copyingTo, Msg.copyError (PyExc.fsError "FileNotFoundError")], false) := by
  rfl

/-- C5: `copy_docs` is idempotent — for every source tree, destination
state and fault environment, running it a second time from the state the
first run left behind produces exactly the same destination state,
printed lines and return value as the first run. -/
theorem copy_docs_idempotent (f : FsFaults) (src dest : FsNode) :
    copy_docs f src (copy_docs f src dest).1 = copy_docs f src dest := by
  obtain ⟨mf, rf, cf⟩ := f
  rcases src with _ | (c | es) <;> rcases dest with _ | (d | fs) <;>
    cases mf <;> cases rf <;> cases cf <;> rfl

/-- C6: when the destination does not exist, `os.makedirs(...,
exist_ok=True)` creates it before any copying happens, and `copy_docs`
on an absent destination (with an existing, readable source directory
and no filesystem faults) succeeds, leaving the destination equal to the
source tree — it never fails because of the destination's absence. -/
theorem copy_docs_creates_missing_dest (es : List (String × FsTree)) :
    makedirs_exist_ok Option.none = Except.ok (some (FsTree.dir [])) ∧
    copy_docs FsFaults.none (some (FsTree.dir es)) Option.none
      = (some (FsTree.dir es), [Msg.copyingTo, Msg.copySuccess], true) :=
  ⟨rfl, rfl⟩

/-- C9: whenever `copy_docs` returns `True` the destination holds exactly
the source tree (every previously present file absent from the source is
gone), and the stage is not atomic: with the source missing, the run
deletes the pre-existing destination tree, then fails — it returns
`False` with the old destination content already destroyed. -/
theorem copy_docs_success_exact_copy (f : FsFaults) (src dest : FsNode)
    (h : (copy_docs f src dest).2.2 = true) :
    (copy_docs f src dest).1 = src ∧
    copy_docs FsFaults.none Option.none (some (FsTree.dir [("old.md", FsTree.file "stale")]))
      = (Option.none, [Msg.copyingTo, Msg.copyError (PyExc.fsError "FileNotFoundError")],
         false) := by
  refine ⟨?_, rfl⟩
  obtain ⟨mf, rf, cf⟩ := f
  rcases src with _ | (c | es) <;> rcases dest with _ | (d | fs) <;>
    cases mf <;> cases rf <;> cases cf <;> first | rfl | exact Bool.noConfusion h

/-- C9 witness: at a concrete fault-free environment with an existing
source, `copy_docs` returned `True` and the destination is the source. -/
theorem copy_docs_success_exact_copy_witness :
    (copy_docs FsFaults.none (some (FsTree.dir [("a.md", FsTree.file "x")])) Option.none).1
      = some (FsTree.dir [("a.md", FsTree.file "x")]) :=
  (copy_docs_success_exact_copy FsFaults.none
    (some (FsTree.dir [("a.md", FsTree.file "x")])) Option.none rfl).1

/-- C10: `copy_docs` never lets an exception escape — for every fault
environment and filesystem state it returns a boolean, either succeeding
with the success line or returning `False` having printed the error line
with the caught exception; by contrast, the two subprocess stages catch
only `CalledProcessError`, so an exception of any other type raised
inside them propagates uncaught. -/
theorem copy_docs_never_raises :
    (∀ (f : FsFaults) (src dest : FsNode),
        ((copy_docs f src dest).2.2 = true ∧
          (copy_docs f src dest).2.1 = [Msg.copyingTo, Msg.copySuccess]) ∨
        (∃ e, (copy_docs f src dest).2.2 = false ∧
          (copy_docs f src dest).2.1 = [Msg.copyingTo, Msg.copyError e])) ∧
    (run_phpdoc (ProcOutcome.execFault (PyExc.osError "docker missing"))).2
      = Except.error (PyExc.osError "docker missing") ∧
    (run_schema_generator (ProcOutcome.execFault (PyExc.osError "python missing"))).2
      = Except.error (PyExc.osError "python missing") := by
  refine ⟨?_, rfl, rfl⟩
  intro f src dest
  obtain ⟨mf, rf, cf⟩ := f
  rcases src with _ | (c | es) <;> rcases dest with _ | (d | fs) <;>
    cases mf <;> cases rf <;> cases cf <;>
      first
        | exact Or.inl ⟨rfl, rfl⟩
        | exact Or.inr ⟨_, rfl, rfl⟩

/-- C7: the subprocess stages decide success solely from the child
process's exit status: each returns `True` exactly when the status is 0,
returns `False` on a non-zero status, and the result is unchanged under
arbitrary replacement of the stdout and stderr texts. -/
theorem subprocess_stages_exit_status_only (s : Int) (o e o' e' : String) :
    ((run_phpdoc (ProcOutcome.exited s o e)).2 = Except.ok true ↔ s = 0) ∧
    ((run_schema_generator (ProcOutcome.exited s o e)).2 = Except.ok true ↔ s = 0) ∧
    (s ≠ 0 → (run_phpdoc (ProcOutcome.exited s o e)).2 = Except.ok false ∧
      (run_schema_generator (ProcOutcome.exited s o e)).2 = Except.ok false) ∧
    run_phpdoc (ProcOutcome.exited s o e) = run_phpdoc (ProcOutcome.exited s o' e') ∧
    run_schema_generator (ProcOutcome.exited s o e)
      = run_schema_generator (ProcOutcome.exited s o' e') := by
  by_cases hs : s = 0 <;>
    simp [run_phpdoc, run_schema_generator, subprocessRunCheck, hs]

/-- C7 witness: at exit status 2 both stages return `False`. -/
theorem subprocess_stages_exit_status_only_witness :
    (run_phpdoc (ProcOutcome.exited 2 "so" "se")).2 = Except.ok false ∧
    (run_schema_generator (ProcOutcome.exited 2 "so" "se")).2 = Except.ok false :=
  (subprocess_stages_exit_status_only 2 "so" "se" "x" "y").2.2.1 (by decide)

/-- C1: the pipeline is fail-fast — if `run_schema_generator` returns
`False` then neither `run_phpdoc` nor `copy_docs` is ever invoked, and if
it returns `True` but `run_phpdoc` returns `False` then `copy_docs` is
never invoked: the main block halts right after the first failing
stage. -/
theorem pipeline_fail_fast (w : World) :
    (schemaResult w = Except.ok false →
      (main_block w).invoked = [StageName.schemaGen]) ∧
    (schemaResult w = Except.ok true → phpdocResult w = Except.ok false →
      (main_block w).invoked = [StageName.schemaGen, StageName.phpdoc]) := by
  rcases h1 : run_schema_generator w.schemaProc with ⟨o1, r1⟩
  rcases h2 : run_phpdoc w.phpdocProc with ⟨o2, r2⟩
  constructor
  · intro hs
    have hr1 : r1 = Except.ok false := by rw [schemaResult, h1] at hs; exact hs
    subst hr1
    simp [main_block, h1]
  · intro hs hp
    have hr1 : r1 = Except.ok true := by rw [schemaResult, h1] at hs; exact hs
    have hr2 : r2 = Except.ok false := by rw [phpdocResult, h2] at hp; exact hp
    subst hr1; subst hr2
    simp [main_block, h1, h2]

/-- C1 witness: with the schema generator exiting 1 only the first stage
ran; with phpDocumentor exiting 2 only the first two ran. -/
theorem pipeline_fail_fast_witness :
    (main_block wSchemaFails).invoked = [StageName.schemaGen] ∧
    (main_block wPhpdocFails).invoked = [StageName.schemaGen, StageName.phpdoc] :=
  ⟨(pipeline_fail_fast wSchemaFails).1 rfl,
   (pipeline_fail_fast wPhpdocFails).2 rfl rfl⟩

/-- C2: the process exit status reflects the overall outcome — the exit
code is 0 exactly when all three stages return `True`, and it is 1
whenever any stage returns `False` in the run's environment. -/
theorem exit_code_reflects_outcome (w : World) :
    ((main_block w).exitCode = 0 ↔ allStagesTrue w) ∧
    ((schemaResult w = Except.ok false ∨ phpdocResult w = Except.ok false ∨
        copyResult w = false) →
      (main_block w).exitCode = 1) := by
  rcases h1 : run_schema_generator w.schemaProc with ⟨o1, r1⟩
  rcases h2 : run_phpdoc w.phpdocProc with ⟨o2, r2⟩
  rcases h3 : copy_docs w.fsFaults w.src w.dest with ⟨d3, o3, b3⟩
  rcases r1 with e1 | (_ | _) <;> rcases r2 with e2 | (_ | _) <;> cases b3 <;>
    simp [main_block, allStagesTrue, schemaResult, phpdocResult, copyResult, h1, h2, h3]

/-- C2 witness: all stages succeeding gives exit code 0; phpDocumentor
failing gives exit code 1. -/
theorem exit_code_reflects_outcome_witness :
    (main_block wAllOk).exitCode = 0 ∧ (main_block wPhpdocFails).exitCode = 1 :=
  ⟨(exit_code_reflects_outcome wAllOk).1.mpr ⟨rfl, rfl, rfl⟩,
   (exit_code_reflects_outcome wPhpdocFails).2 (Or.inr (Or.inl rfl))⟩

/-- C4: the run reports overall success — exit code 0 together with the
completion line printed — exactly when all three stages returned `True`;
in every other environment the exit code is 1. -/
theorem overall_success_iff_all_stages (w : World) :
    (((main_block w).exitCode = 0 ∧ Msg.buildCompleted ∈ (main_block w).output)
      ↔ allStagesTrue w) ∧
    (¬ allStagesTrue w → (main_block w).exitCode = 1) := by
  rcases h1 : run_schema_generator w.schemaProc with ⟨o1, r1⟩
  rcases h2 : run_phpdoc w.phpdocProc with ⟨o2, r2⟩
  rcases h3 : copy_docs w.fsFaults w.src w.dest with ⟨d3, o3, b3⟩
  rcases r1 with e1 | (_ | _) <;> rcases r2 with e2 | (_ | _) <;> cases b3 <;>
    simp [main_block, allStagesTrue, schemaResult, phpdocResult, copyResult, h1, h2, h3]

/-- C4 witness: the all-success environment yields exit code 0 with the
completion line printed; the environment whose copy source is missing
yields exit code 1. -/
theorem overall_success_iff_all_stages_witness :
    ((main_block wAllOk).exitCode = 0 ∧ Msg.buildCompleted ∈ (main_block wAllOk).output) ∧
    (main_block wCopyFails).exitCode = 1 :=
  ⟨(overall_success_iff_all_stages wAllOk).1.mpr ⟨rfl, rfl, rfl⟩,
   (overall_success_iff_all_stages wCopyFails).2
     (fun hall => absurd hall.2.2 (by decide))⟩

/-- C8: no stage is ever invoked twice — in every environment the list of
invoked stages has no duplicates. -/
theorem no_stage_reinvoked (w : World) : (main_block w).invoked.Nodup := by
  rcases h1 : run_schema_generator w.schemaProc with ⟨o1, r1⟩
  rcases h2 : run_phpdoc w.phpdocProc with ⟨o2, r2⟩
  rcases h3 : copy_docs w.fsFaults w.src w.dest with ⟨d3, o3, b3⟩
  rcases r1 with e1 | (_ | _) <;> rcases r2 with e2 | (_ | _) <;> cases b3 <;>
    simp [main_block, h1, h2, h3]

/-- C3 counterexample: an exception that is not a `CalledProcessError` —
here an `OSError` because the `python` executable is missing — raised
inside `run_schema_generator`'s work is NOT caught at the stage boundary:
it propagates out of the stage uncaught, refuting the claim that every
exception is caught in all three stages. -/
theorem uncaught_exception_escapes_stage :
    (run_schema_generator (ProcOutcome.execFault (PyExc.osError "python not found"))).2
      = Except.error (PyExc.osError "python not found") := rfl

/-- C3 amended: in `run_phpdoc` and `run_schema_generator` only
`subprocess.CalledProcessError` (a non-zero exit of the child) is caught
at the stage boundary — it is reported with a line identifying the stage
and the cause and turned into a `False` return — while `copy_docs`
catches every exception, reporting it likewise; exceptions of other types
inside the subprocess stages propagate uncaught. -/
theorem stage_boundary_handling_amended (s : Int) (o e : String) (h : s ≠ 0)
    (f : FsFaults) (src dest : FsNode) :
    run_phpdoc (ProcOutcome.exited s o e)
      = ([Msg.phpdocError (PyExc.calledProcessError s)], Except.ok false) ∧
    run_schema_generator (ProcOutcome.exited s o e)
      = ([Msg.schemaGenerating, Msg.schemaError (PyExc.calledProcessError s)],
         Except.ok false) ∧
    ((copy_docs f src dest).2.2 = false →
      ∃ ex, (copy_docs f src dest).2.1 = [Msg.copyingTo, Msg.copyError ex]) := by
  refine ⟨?_, ?_, ?_⟩
  · simp [run_phpdoc, subprocessRunCheck, h]
  · simp [run_schema_generator, subprocessRunCheck, h]
  · intro hb
    obtain ⟨mf, rf, cf⟩ := f
    rcases src with _ | (c | es) <;> rcases dest with _ | (d | fs) <;>
      cases mf <;> cases rf <;> cases cf <;>
        first | exact ⟨_, rfl⟩ | exact Bool.noConfusion hb

/-- C3 amended witness: at exit status 2 phpDocumentor's failure is
caught and reported, and a failing `copy_docs` run (missing source)
printed its caught exception. -/
theorem stage_boundary_handling_amended_witness :
    run_phpdoc (ProcOutcome.exited 2 "a" "b")
      = ([Msg.phpdocError (PyExc.calledProcessError 2)], Except.ok false) ∧
    ∃ ex, (copy_docs FsFaults.none Option.none Option.none).2.1
      = [Msg.copyingTo, Msg.copyError ex] :=
  ⟨(stage_boundary_handling_amended 2 "a" "b" (by decide)
      FsFaults.none Option.none Option.none).1,
   (stage_boundary_handling_amended 2 "a" "b" (by decide)
      FsFaults.none Option.none Option.none).2.2 rfl⟩
